import Mathlib

/-!
Verification development for the OpenCascade kernel-binding layer of the
kids3d repository: the `Result` container, the `ensureOccShape` unwrap
guard, the `convertShapeResult` normalizer, the `ShapeFactory` facade
(src/unnamed/part_001) and the `QuaternionConverter`
(src/unnamed/part_000), embedded shallowly.  The opaque wasm kernel is a
parameter (a record of functions), so a theorem quantified over all
kernels expresses behaviour that is independent of — i.e. never reaches —
the kernel call.
-/

/-- Modelled from the spec: the chili-core `Result` class is not under
src (only its test is).  Per the spec it is a tagged union with exactly
two variants, `ok value` and `err error`, queried via `isOk`. -/
inductive Result (T : Type) (E : Type) where
  | ok (value : T)
  | err (error : E)
deriving DecidableEq

/-- The `isOk` query of `Result`. -/
def Result.isOk {T E : Type} : Result T E → Bool
  | .ok _ => true
  | .err _ => false

/-- The stored success value, when present (reading `value` on an `err`
is a usage fault in the source, so the accessor is partial-by-Option). -/
def Result.value? {T E : Type} : Result T E → Option T
  | .ok v => some v
  | .err _ => none

/-- The stored error, when present. -/
def Result.error? {T E : Type} : Result T E → Option E
  | .ok _ => none
  | .err e => some e

/-- A native kernel shape handle (`TopoDS_Shape` from the wasm module),
opaque to the binding layer; identified by an id. -/
structure TopoDS_Shape where
  handleId : Nat
deriving DecidableEq, Inhabited

/-- The opaque error value carried by a failed native kernel outcome. -/
structure NativeError where
  message : String
deriving DecidableEq, Inhabited

/-- The JS `String(x)` conversion applied to a native error in
`convertShapeResult` (src/unnamed/part_001 line 42). -/
def jsString (e : NativeError) : String := e.message

/-- The tagged outcome of a native kernel call (`ShapeResult` from the
wasm module): an `isOk` flag, a shape handle populated on success and an
error populated on failure. -/
structure ShapeResult where
  isOk : Bool
  shape : TopoDS_Shape
  error : NativeError
deriving DecidableEq, Inhabited

/-- An application-level shape instance (`IShape`).  At the kernel
boundary the only relevant runtime fact is whether the instance is this
binding's own wrapper (`instanceof OccShape`), carrying a native handle,
or a foreign implementation of the interface. -/
inductive IShape where
  | occ (shape : TopoDS_Shape)
  | foreign (tag : Nat)
deriving DecidableEq, Inhabited

/-- Whether the instance is this binding's own wrapper type
(`x instanceof OccShape`). -/
def IShape.isOccShape : IShape → Bool
  | .occ _ => true
  | .foreign _ => false

/-- `OcctHelper.wrapShape`: wraps a native handle into this binding's
ownership wrapper (spec section 4.4; the helper's body is not under src). -/
def OcctHelper.wrapShape (shape : TopoDS_Shape) : IShape := IShape.occ shape

/-- The message of the hard fault thrown by `ensureOccShape`
(src/unnamed/part_001 lines 27 and 37). -/
def occGeometryError : String := "The OCC kernel only supports OCC geometries."

/-- The array branch of `ensureOccShape` (src/unnamed/part_001 lines
24-31): `shapes.map` with a throw at the first element that is not an
`OccShape`, returning the native handles in input order. -/
def ensureOccList : List IShape → Except String (List TopoDS_Shape)
  | [] => Except.ok []
  | x :: xs =>
    match x with
    | .occ s => (ensureOccList xs).map (fun ss => s :: ss)
    | .foreign _ => Except.error occGeometryError

/-- `ensureOccShape` (src/unnamed/part_001 lines 23-38): accepts a single
shape or an array of shapes (modelled by a sum); every element must be an
`OccShape`, otherwise a hard fault (modelled by `Except.error`) is
thrown; on success the native handles are returned in input order. -/
def ensureOccShape (shapes : IShape ⊕ List IShape) : Except String (List TopoDS_Shape) :=
  match shapes with
  | .inr xs => ensureOccList xs
  | .inl (.occ s) => Except.ok [s]
  | .inl (.foreign _) => Except.error occGeometryError

/-- `convertShapeResult` (src/unnamed/part_001 lines 40-45): a failed
kernel outcome becomes `Result.err (String(error))`, a successful one
becomes `Result.ok` of the wrapped handle. -/
def convertShapeResult (result : ShapeResult) : Result IShape String :=
  if !result.isOk then Result.err (jsString result.error)
  else Result.ok (OcctHelper.wrapShape result.shape)

/-- A point or vector value triple.  Coordinates are modelled by exact
rationals (the source's float64 domain, idealized). -/
structure XYZ where
  x : ℚ
  y : ℚ
  z : ℚ
deriving DecidableEq, Inhabited

/-- In the source `XYZLike` is the plain-triple view of `XYZ`. -/
abbrev XYZLike := XYZ

/-- The squared Euclidean length of a vector.  The source's
`vec.length()` is the square root of this; over the (idealized exact)
number domain `length v = 0` holds exactly when `lengthSq v = 0`, so the
factory's `length() === 0` test is embedded as `lengthSq v = 0`. -/
def XYZ.lengthSq (v : XYZ) : ℚ := v.x ^ 2 + v.y ^ 2 + v.z ^ 2

/-- The squared Euclidean distance between two points. -/
def XYZ.distSq (p q : XYZ) : ℚ :=
  (p.x - q.x) ^ 2 + (p.y - q.y) ^ 2 + (p.z - q.z) ^ 2

/-- An axis ray (origin plus direction), passed through to the kernel. -/
structure Ray where
  location : XYZ
  direction : XYZ
deriving DecidableEq, Inhabited

/-- Modelled from the spec: `MathUtils.allEqualZero` of chili-core is not
under src; per the spec's data model a value is (near-)zero when it is
within a fixed epsilon of zero, checked per number.  The fixed epsilon is
passed explicitly here since its numeric value is not visible. -/
def MathUtils.allEqualZero (eps : ℚ) (numbers : List ℚ) : Bool :=
  numbers.all (fun n => |n| < eps)

/-- Modelled from the spec: `MathUtils.degToRad` of chili-core is not
under src; per the spec a degree input `d` becomes `d * pi / 180`. -/
noncomputable def MathUtils.degToRad (degrees : ℝ) : ℝ :=
  degrees * (Real.pi / 180)

/-- The opaque wasm kernel (`wasm.ShapeFactory`), as a record of the
operations the binding invokes.  Each returns a tagged `ShapeResult`. -/
structure WasmShapeFactory where
  face : List TopoDS_Shape → ShapeResult
  line : XYZLike → XYZLike → ShapeResult
  arc : XYZLike → XYZLike → XYZLike → ℝ → ShapeResult
  wire : List TopoDS_Shape → ShapeResult
  prism : TopoDS_Shape → XYZ → ShapeResult
  sweep : TopoDS_Shape → TopoDS_Shape → ShapeResult
  revolve : TopoDS_Shape → Ray → ℝ → ShapeResult
  booleanCommon : List TopoDS_Shape → List TopoDS_Shape → ShapeResult
  booleanCut : List TopoDS_Shape → List TopoDS_Shape → ShapeResult
  booleanFuse : List TopoDS_Shape → List TopoDS_Shape → ShapeResult
  combine : List TopoDS_Shape → ShapeResult
  makeThickSolidBySimple : TopoDS_Shape → ℚ → ShapeResult
  makeThickSolidByJoin : TopoDS_Shape → List TopoDS_Shape → ℚ → ShapeResult

/-- `ShapeFactory.face` (src/unnamed/part_001 lines 54-57). -/
def ShapeFactory.face (k : WasmShapeFactory) (wire : List IShape) :
    Except String (Result IShape String) := do
  let shapes ← ensureOccShape (.inr wire)
  return convertShapeResult (k.face shapes)

/-- `ShapeFactory.line` (src/unnamed/part_001 lines 64-70): rejects the
pair when all three coordinate differences are (near-)zero, otherwise
calls the kernel.  `eps` is the fixed epsilon of `allEqualZero`. -/
def ShapeFactory.line (k : WasmShapeFactory) (eps : ℚ) (start end' : XYZLike) :
    Result IShape String :=
  if MathUtils.allEqualZero eps [start.x - end'.x, start.y - end'.y, start.z - end'.z] then
    Result.err "The start and end points are too close."
  else
    convertShapeResult (k.line start end')

/-- `ShapeFactory.arc` (src/unnamed/part_001 lines 71-75): the degree
angle is converted to radians before the kernel call. -/
noncomputable def ShapeFactory.arc (k : WasmShapeFactory)
    (normal center start : XYZLike) (angle : ℝ) : Result IShape String :=
  convertShapeResult (k.arc normal center start (MathUtils.degToRad angle))

/-- `ShapeFactory.wire` (src/unnamed/part_001 lines 90-92). -/
def ShapeFactory.wire (k : WasmShapeFactory) (edges : List IShape) :
    Except String (Result IShape String) := do
  let shapes ← ensureOccShape (.inr edges)
  return convertShapeResult (k.wire shapes)

/-- `ShapeFactory.prism` (src/unnamed/part_001 lines 93-98): the
zero-length vector check comes first, then the shape is unwrapped and the
kernel called. -/
def ShapeFactory.prism (k : WasmShapeFactory) (shape : IShape) (vec : XYZ) :
    Except String (Result IShape String) :=
  if vec.lengthSq = 0 then
    Except.ok (Result.err "The vector length is 0, the prism cannot be created.")
  else do
    let ss ← ensureOccShape (.inl shape)
    return convertShapeResult (k.prism ss.headI vec)

/-- `ShapeFactory.fuse` (src/unnamed/part_001 lines 99-103): delegates to
the kernel's booleanFuse with bottom first, top second. -/
def ShapeFactory.fuse (k : WasmShapeFactory) (bottom top : IShape) :
    Except String (Result IShape String) := do
  let b ← ensureOccShape (.inl bottom)
  let t ← ensureOccShape (.inl top)
  return convertShapeResult (k.booleanFuse b t)

/-- `ShapeFactory.sweep` (src/unnamed/part_001 lines 104-108). -/
def ShapeFactory.sweep (k : WasmShapeFactory) (profile path : IShape) :
    Except String (Result IShape String) := do
  let p ← ensureOccShape (.inl profile)
  let w ← ensureOccShape (.inl path)
  return convertShapeResult (k.sweep p.headI w.headI)

/-- `ShapeFactory.revolve` (src/unnamed/part_001 lines 109-113): the
degree angle is converted to radians before the kernel call. -/
noncomputable def ShapeFactory.revolve (k : WasmShapeFactory)
    (profile : IShape) (axis : Ray) (angle : ℝ) :
    Except String (Result IShape String) := do
  let p ← ensureOccShape (.inl profile)
  return convertShapeResult (k.revolve p.headI axis (MathUtils.degToRad angle))

/-- `ShapeFactory.booleanCommon` (src/unnamed/part_001 lines 114-118). -/
def ShapeFactory.booleanCommon (k : WasmShapeFactory) (shape1 shape2 : IShape) :
    Except String (Result IShape String) := do
  let a ← ensureOccShape (.inl shape1)
  let b ← ensureOccShape (.inl shape2)
  return convertShapeResult (k.booleanCommon a b)

/-- `ShapeFactory.booleanCut` (src/unnamed/part_001 lines 119-123). -/
def ShapeFactory.booleanCut (k : WasmShapeFactory) (shape1 shape2 : IShape) :
    Except String (Result IShape String) := do
  let a ← ensureOccShape (.inl shape1)
  let b ← ensureOccShape (.inl shape2)
  return convertShapeResult (k.booleanCut a b)

/-- `ShapeFactory.booleanFuse` (src/unnamed/part_001 lines 124-128). -/
def ShapeFactory.booleanFuse (k : WasmShapeFactory) (shape1 shape2 : IShape) :
    Except String (Result IShape String) := do
  let a ← ensureOccShape (.inl shape1)
  let b ← ensureOccShape (.inl shape2)
  return convertShapeResult (k.booleanFuse a b)

/-- `ShapeFactory.combine` (src/unnamed/part_001 lines 129-131). -/
def ShapeFactory.combine (k : WasmShapeFactory) (shapes : List IShape) :
    Except String (Result IShape String) := do
  let ss ← ensureOccShape (.inr shapes)
  return convertShapeResult (k.combine ss)

/-- `ShapeFactory.makeThickSolidBySimple` (src/unnamed/part_001 lines
132-136). -/
def ShapeFactory.makeThickSolidBySimple (k : WasmShapeFactory)
    (shape : IShape) (thickness : ℚ) : Except String (Result IShape String) := do
  let ss ← ensureOccShape (.inl shape)
  return convertShapeResult (k.makeThickSolidBySimple ss.headI thickness)

/-- `ShapeFactory.makeThickSolidByJoin` (src/unnamed/part_001 lines
137-145): the shape is unwrapped first, then the closing faces. -/
def ShapeFactory.makeThickSolidByJoin (k : WasmShapeFactory)
    (shape : IShape) (closingFaces : List IShape) (thickness : ℚ) :
    Except String (Result IShape String) := do
  let ss ← ensureOccShape (.inl shape)
  let cf ← ensureOccShape (.inr closingFaces)
  return convertShapeResult (k.makeThickSolidByJoin ss.headI cf thickness)

/-- A concrete kernel whose every operation succeeds with handle 7; used
to observe at the seam whether an operation reached the kernel. -/
def kOk : WasmShapeFactory where
  face := fun _ => { isOk := true, shape := ⟨7⟩, error := ⟨""⟩ }
  line := fun _ _ => { isOk := true, shape := ⟨7⟩, error := ⟨""⟩ }
  arc := fun _ _ _ _ => { isOk := true, shape := ⟨7⟩, error := ⟨""⟩ }
  wire := fun _ => { isOk := true, shape := ⟨7⟩, error := ⟨""⟩ }
  prism := fun _ _ => { isOk := true, shape := ⟨7⟩, error := ⟨""⟩ }
  sweep := fun _ _ => { isOk := true, shape := ⟨7⟩, error := ⟨""⟩ }
  revolve := fun _ _ _ => { isOk := true, shape := ⟨7⟩, error := ⟨""⟩ }
  booleanCommon := fun _ _ => { isOk := true, shape := ⟨7⟩, error := ⟨""⟩ }
  booleanCut := fun _ _ => { isOk := true, shape := ⟨7⟩, error := ⟨""⟩ }
  booleanFuse := fun _ _ => { isOk := true, shape := ⟨7⟩, error := ⟨""⟩ }
  combine := fun _ => { isOk := true, shape := ⟨7⟩, error := ⟨""⟩ }
  makeThickSolidBySimple := fun _ _ => { isOk := true, shape := ⟨7⟩, error := ⟨""⟩ }
  makeThickSolidByJoin := fun _ _ _ => { isOk := true, shape := ⟨7⟩, error := ⟨""⟩ }

/-- Modelled from the spec: the chili-core `Quaternion` class
(`toEuler`/`fromEuler`) is not under src; the spec requires the
orientation text converter's round trip to be lossless, i.e. the two to
be mutually inverse, so a quaternion is represented by its Euler-angle
triple (radians). -/
structure Chili.Quaternion where
  eulerX : ℝ
  eulerY : ℝ
  eulerZ : ℝ

/-- `Quaternion.toEuler`, on the representation above. -/
def Chili.Quaternion.toEuler (q : Chili.Quaternion) : ℝ × ℝ × ℝ := (q.eulerX, q.eulerY, q.eulerZ)

/-- `Quaternion.fromEuler`, on the representation above. -/
def Chili.Quaternion.fromEuler (x y z : ℝ) : Chili.Quaternion := ⟨x, y, z⟩

/-- `QuaternionConverter.convert` (src/unnamed/part_000 lines 6-10): the
Euler angles are scaled by 180/pi (radians to degrees) and serialized as
a comma-separated string.  The string is modelled by the list of its
tokens' numeric parses (JS `Number` of the serialization of a number
recovers it exactly), so each emitted token is `some` of its value. -/
noncomputable def QuaternionConverter.convert (value : Chili.Quaternion) :
    Result (List (Option ℝ)) String :=
  let s : ℝ := 180 / Real.pi
  Result.ok [some (value.toEuler.1 * s), some (value.toEuler.2.1 * s),
    some (value.toEuler.2.2 * s)]

/-- `QuaternionConverter.convertBack` (src/unnamed/part_000 lines 12-22):
the input string, split at commas with each token parsed by JS `Number`,
is modelled by the list of the tokens' parses (`none` for a NaN parse).
The NaN parses are filtered out; unless exactly 3 numbers remain the
conversion fails (the source's message is prefixed with the raw input
text, which the token-list model omits); otherwise the three numbers are
scaled by pi/180 (degrees to radians) and a quaternion is built. -/
noncomputable def QuaternionConverter.convertBack (value : List (Option ℝ)) :
    Result Chili.Quaternion String :=
  let vs := value.filterMap id
  if vs.length ≠ 3 then
    Result.err "convert to Quaternion error"
  else
    let s : ℝ := Real.pi / 180
    Result.ok (Chili.Quaternion.fromEuler (vs.getD 0 0 * s) (vs.getD 1 0 * s) (vs.getD 2 0 * s))

/-- The array branch of `ensureOccShape` throws as soon as some element
is not this binding's wrapper type. -/
theorem ensureOccList_error_of_foreign (xs : List IShape)
    (h : ∃ x ∈ xs, x.isOccShape = false) :
    ensureOccList xs = Except.error occGeometryError := by
  induction xs with
  | nil => simp at h
  | cons a as ih =>
    rcases h with ⟨x, hmem, hx⟩
    rcases List.mem_cons.mp hmem with rfl | hmem'
    · cases x with
      | occ s => simp [IShape.isOccShape] at hx
      | foreign t => simp [ensureOccList]
    · cases a with
      | occ s =>
        simp [ensureOccList, ih ⟨x, hmem', hx⟩, Except.map]
      | foreign t => simp [ensureOccList]

/-- The array branch of `ensureOccShape` succeeds on wrapper-only input,
returning the handles in input order. -/
theorem ensureOccList_map_occ (ts : List TopoDS_Shape) :
    ensureOccList (ts.map IShape.occ) = Except.ok ts := by
  induction ts with
  | nil => simp [ensureOccList]
  | cons t ts ih => simp [ensureOccList, ih, Except.map]

/-- Over the exact number domain the zero-length test of `prism` holds
exactly on the zero vector. -/
theorem XYZ.lengthSq_eq_zero_iff (v : XYZ) : v.lengthSq = 0 ↔ v = ⟨0, 0, 0⟩ := by
  constructor
  · intro h
    simp only [XYZ.lengthSq] at h
    have hx : v.x = 0 := by nlinarith [sq_nonneg v.x, sq_nonneg v.y, sq_nonneg v.z]
    have hy : v.y = 0 := by nlinarith [sq_nonneg v.x, sq_nonneg v.y, sq_nonneg v.z]
    have hz : v.z = 0 := by nlinarith [sq_nonneg v.x, sq_nonneg v.y, sq_nonneg v.z]
    cases v
    simp_all
  · intro h
    subst h
    simp [XYZ.lengthSq]

/-- C4: `convertShapeResult` returns `Result.err` carrying the kernel
error converted to a string whenever the outcome's `isOk` flag is false
(the error is never dropped), and `Result.ok` of a wrapper around the
native handle when the outcome is successful. -/
theorem c4_convertShapeResult_contract (r : ShapeResult) :
    (r.isOk = false → convertShapeResult r = Result.err (jsString r.error)) ∧
    (r.isOk = true → convertShapeResult r = Result.ok (OcctHelper.wrapShape r.shape)) := by
  constructor <;> intro h <;> simp [convertShapeResult, h]

/-- Witness for C4 at one failed and one successful concrete outcome. -/
theorem c4_convertShapeResult_contract_witness :
    convertShapeResult ⟨false, ⟨0⟩, ⟨"kernel boom"⟩⟩ = Result.err "kernel boom" ∧
    convertShapeResult ⟨true, ⟨3⟩, ⟨""⟩⟩ = Result.ok (OcctHelper.wrapShape ⟨3⟩) :=
  ⟨(c4_convertShapeResult_contract ⟨false, ⟨0⟩, ⟨"kernel boom"⟩⟩).1 rfl,
   (c4_convertShapeResult_contract ⟨true, ⟨3⟩, ⟨""⟩⟩).2 rfl⟩

/-- C5: `arc` and `revolve` hand the kernel the degree input `d`
converted to radians as `d * pi / 180`; the conversion happens before the
kernel call boundary (the kernel `k` receives the converted value). -/
theorem c5_arc_revolve_degrees_to_radians :
    (∀ (k : WasmShapeFactory) (normal center start : XYZLike) (d : ℝ),
      ShapeFactory.arc k normal center start d
        = convertShapeResult (k.arc normal center start (d * (Real.pi / 180)))) ∧
    (∀ (k : WasmShapeFactory) (t : TopoDS_Shape) (axis : Ray) (d : ℝ),
      ShapeFactory.revolve k (IShape.occ t) axis d
        = Except.ok (convertShapeResult (k.revolve t axis (d * (Real.pi / 180))))) :=
  ⟨fun _ _ _ _ _ => rfl, fun _ _ _ _ => rfl⟩

/-- C6: `Result.ok v` reports `isOk` true and stores exactly `v`
(including falsy values such as `false` and `undefined`, the latter
modelled by `Option.none`); `Result.err e` reports `isOk` false and
stores exactly `e`. -/
theorem c6_result_ok_err_contract :
    (∀ (T E : Type) (v : T), (Result.ok v : Result T E).isOk = true
        ∧ (Result.ok v : Result T E).value? = some v) ∧
    (∀ (T E : Type) (e : E), (Result.err e : Result T E).isOk = false
        ∧ (Result.err e : Result T E).error? = some e) ∧
    (Result.ok false : Result Bool String).isOk = true ∧
    (Result.ok (none : Option Nat) : Result (Option Nat) String).isOk = true :=
  ⟨fun _ _ _ => ⟨rfl, rfl⟩, fun _ _ _ => ⟨rfl, rfl⟩, rfl, rfl⟩

/-- C7: `fuse` and `booleanFuse` are the same operation: they agree on
all inputs, and both hand the kernel's boolean-fuse primitive the first
operand first and the second operand second. -/
theorem c7_fuse_equals_booleanFuse :
    (∀ (k : WasmShapeFactory) (a b : IShape),
      ShapeFactory.fuse k a b = ShapeFactory.booleanFuse k a b) ∧
    (∀ (k : WasmShapeFactory) (a b : TopoDS_Shape),
      ShapeFactory.fuse k (IShape.occ a) (IShape.occ b)
        = Except.ok (convertShapeResult (k.booleanFuse [a] [b]))) :=
  ⟨fun _ _ _ => rfl, fun _ _ _ => rfl⟩

/-- C10: `prism` validates the extrusion vector before unwrapping the
shape input: for every shape, including a foreign one, a zero-length
vector yields `Result.err` and no hard fault is raised. -/
theorem c10_prism_vector_check_before_unwrap (k : WasmShapeFactory)
    (s : IShape) (v : XYZ) (h : v.lengthSq = 0) :
    ShapeFactory.prism k s v
      = Except.ok (Result.err "The vector length is 0, the prism cannot be created.") := by
  simp [ShapeFactory.prism, h]

/-- Witness for C10: a foreign shape together with the zero vector. -/
theorem c10_prism_vector_check_before_unwrap_witness :
    ShapeFactory.prism kOk (IShape.foreign 5) ⟨0, 0, 0⟩
      = Except.ok (Result.err "The vector length is 0, the prism cannot be created.") :=
  c10_prism_vector_check_before_unwrap kOk (IShape.foreign 5) ⟨0, 0, 0⟩ (by simp [XYZ.lengthSq])

/-- C1 counterexample: `prism` is a factory operation accepting a shape
input, and passing it a foreign shape together with the zero extrusion
vector raises no hard fault at all — the call returns normally with the
zero-vector `Result.err`, because the vector validation runs before the
shape is inspected.  So "passing a foreign shape into any operation
accepting shapes raises a hard fault" fails as a universal statement. -/
theorem c1_counterexample :
    ShapeFactory.prism kOk (IShape.foreign 0) ⟨0, 0, 0⟩
      = Except.ok (Result.err "The vector length is 0, the prism cannot be created.") := by
  simp [ShapeFactory.prism, XYZ.lengthSq]

/-- C1 (amended): for every factory operation accepting shape inputs,
whenever the operation reaches the point of inspecting its shape inputs
(for `prism` this means the earlier zero-vector validation passed; every
other operation inspects its shapes unconditionally), a foreign shape
input raises the hard fault `occGeometryError` (a thrown error, modelled
by `Except.error`), never a `Result.err` — quantified over every kernel,
so the kernel is never invoked. -/
theorem c1_foreign_shape_hard_fault :
    (∀ (k : WasmShapeFactory) (ws : List IShape), (∃ w ∈ ws, w.isOccShape = false) →
      ShapeFactory.face k ws = Except.error occGeometryError) ∧
    (∀ (k : WasmShapeFactory) (es : List IShape), (∃ e ∈ es, e.isOccShape = false) →
      ShapeFactory.wire k es = Except.error occGeometryError) ∧
    (∀ (k : WasmShapeFactory) (s : IShape) (v : XYZ), s.isOccShape = false →
      v.lengthSq ≠ 0 → ShapeFactory.prism k s v = Except.error occGeometryError) ∧
    (∀ (k : WasmShapeFactory) (a b : IShape),
      a.isOccShape = false ∨ b.isOccShape = false →
      ShapeFactory.fuse k a b = Except.error occGeometryError) ∧
    (∀ (k : WasmShapeFactory) (a b : IShape),
      a.isOccShape = false ∨ b.isOccShape = false →
      ShapeFactory.sweep k a b = Except.error occGeometryError) ∧
    (∀ (k : WasmShapeFactory) (p : IShape) (axis : Ray) (angle : ℝ),
      p.isOccShape = false →
      ShapeFactory.revolve k p axis angle = Except.error occGeometryError) ∧
    (∀ (k : WasmShapeFactory) (a b : IShape),
      a.isOccShape = false ∨ b.isOccShape = false →
      ShapeFactory.booleanCommon k a b = Except.error occGeometryError) ∧
    (∀ (k : WasmShapeFactory) (a b : IShape),
      a.isOccShape = false ∨ b.isOccShape = false →
      ShapeFactory.booleanCut k a b = Except.error occGeometryError) ∧
    (∀ (k : WasmShapeFactory) (a b : IShape),
      a.isOccShape = false ∨ b.isOccShape = false →
      ShapeFactory.booleanFuse k a b = Except.error occGeometryError) ∧
    (∀ (k : WasmShapeFactory) (xs : List IShape), (∃ x ∈ xs, x.isOccShape = false) →
      ShapeFactory.combine k xs = Except.error occGeometryError) ∧
    (∀ (k : WasmShapeFactory) (s : IShape) (t : ℚ), s.isOccShape = false →
      ShapeFactory.makeThickSolidBySimple k s t = Except.error occGeometryError) ∧
    (∀ (k : WasmShapeFactory) (s : IShape) (cf : List IShape) (t : ℚ),
      s.isOccShape = false ∨ (∃ c ∈ cf, c.isOccShape = false) →
      ShapeFactory.makeThickSolidByJoin k s cf t = Except.error occGeometryError) := by
  refine ⟨?_, ?_, ?_, ?_, ?_, ?_, ?_, ?_, ?_, ?_, ?_, ?_⟩
  · intro k ws h
    have he := ensureOccList_error_of_foreign ws h
    unfold ShapeFactory.face
    simp [ensureOccShape, he]
  · intro k es h
    have he := ensureOccList_error_of_foreign es h
    unfold ShapeFactory.wire
    simp [ensureOccShape, he]
  · intro k s v hs hv
    cases s with
    | occ s0 => simp [IShape.isOccShape] at hs
    | foreign t0 => simp [ShapeFactory.prism, hv, ensureOccShape]
  · intro k a b h
    rcases h with ha | hb
    · cases a with
      | occ s0 => simp [IShape.isOccShape] at ha
      | foreign t0 => rfl
    · cases b with
      | occ s0 => simp [IShape.isOccShape] at hb
      | foreign t0 => cases a <;> rfl
  · intro k a b h
    rcases h with ha | hb
    · cases a with
      | occ s0 => simp [IShape.isOccShape] at ha
      | foreign t0 => rfl
    · cases b with
      | occ s0 => simp [IShape.isOccShape] at hb
      | foreign t0 => cases a <;> rfl
  · intro k p axis angle hp
    cases p with
    | occ s0 => simp [IShape.isOccShape] at hp
    | foreign t0 => rfl
  · intro k a b h
    rcases h with ha | hb
    · cases a with
      | occ s0 => simp [IShape.isOccShape] at ha
      | foreign t0 => rfl
    · cases b with
      | occ s0 => simp [IShape.isOccShape] at hb
      | foreign t0 => cases a <;> rfl
  · intro k a b h
    rcases h with ha | hb
    · cases a with
      | occ s0 => simp [IShape.isOccShape] at ha
      | foreign t0 => rfl
    · cases b with
      | occ s0 => simp [IShape.isOccShape] at hb
      | foreign t0 => cases a <;> rfl
  · intro k a b h
    rcases h with ha | hb
    · cases a with
      | occ s0 => simp [IShape.isOccShape] at ha
      | foreign t0 => rfl
    · cases b with
      | occ s0 => simp [IShape.isOccShape] at hb
      | foreign t0 => cases a <;> rfl
  · intro k xs h
    have he := ensureOccList_error_of_foreign xs h
    unfold ShapeFactory.combine
    simp [ensureOccShape, he]
  · intro k s t hs
    cases s with
    | occ s0 => simp [IShape.isOccShape] at hs
    | foreign t0 => rfl
  · intro k s cf t h
    cases s with
    | foreign t0 => rfl
    | occ s0 =>
      rcases h with hs | hcf
      · simp [IShape.isOccShape] at hs
      · have he := ensureOccList_error_of_foreign cf hcf
        unfold ShapeFactory.makeThickSolidByJoin
        simp [ensureOccShape, he]
        rfl

/-- Witness for C1 (amended): each operation instantiated with a
concrete foreign shape raises the hard fault. -/
theorem c1_foreign_shape_hard_fault_witness :
    ShapeFactory.face kOk [IShape.foreign 1] = Except.error occGeometryError ∧
    ShapeFactory.wire kOk [IShape.foreign 1] = Except.error occGeometryError ∧
    ShapeFactory.prism kOk (IShape.foreign 1) ⟨1, 0, 0⟩ = Except.error occGeometryError ∧
    ShapeFactory.fuse kOk (IShape.foreign 1) (IShape.occ ⟨2⟩) = Except.error occGeometryError ∧
    ShapeFactory.sweep kOk (IShape.occ ⟨2⟩) (IShape.foreign 1) = Except.error occGeometryError ∧
    ShapeFactory.revolve kOk (IShape.foreign 1) ⟨⟨0, 0, 0⟩, ⟨0, 0, 1⟩⟩ 90 = Except.error occGeometryError ∧
    ShapeFactory.booleanCommon kOk (IShape.foreign 1) (IShape.occ ⟨2⟩) = Except.error occGeometryError ∧
    ShapeFactory.booleanCut kOk (IShape.occ ⟨2⟩) (IShape.foreign 1) = Except.error occGeometryError ∧
    ShapeFactory.booleanFuse kOk (IShape.foreign 1) (IShape.foreign 2) = Except.error occGeometryError ∧
    ShapeFactory.combine kOk [IShape.occ ⟨2⟩, IShape.foreign 1] = Except.error occGeometryError ∧
    ShapeFactory.makeThickSolidBySimple kOk (IShape.foreign 1) 1 = Except.error occGeometryError ∧
    ShapeFactory.makeThickSolidByJoin kOk (IShape.occ ⟨2⟩) [IShape.foreign 1] 1 = Except.error occGeometryError := by
  refine ⟨?_, ?_, ?_, ?_, ?_, ?_, ?_, ?_, ?_, ?_, ?_, ?_⟩
  · exact c1_foreign_shape_hard_fault.1 kOk [IShape.foreign 1] ⟨IShape.foreign 1, by simp, rfl⟩
  · exact c1_foreign_shape_hard_fault.2.1 kOk [IShape.foreign 1] ⟨IShape.foreign 1, by simp, rfl⟩
  · exact c1_foreign_shape_hard_fault.2.2.1 kOk (IShape.foreign 1) ⟨1, 0, 0⟩ rfl (by simp [XYZ.lengthSq])
  · exact c1_foreign_shape_hard_fault.2.2.2.1 kOk _ _ (Or.inl rfl)
  · exact c1_foreign_shape_hard_fault.2.2.2.2.1 kOk _ _ (Or.inr rfl)
  · exact c1_foreign_shape_hard_fault.2.2.2.2.2.1 kOk _ _ _ rfl
  · exact c1_foreign_shape_hard_fault.2.2.2.2.2.2.1 kOk _ _ (Or.inl rfl)
  · exact c1_foreign_shape_hard_fault.2.2.2.2.2.2.2.1 kOk _ _ (Or.inr rfl)
  · exact c1_foreign_shape_hard_fault.2.2.2.2.2.2.2.2.1 kOk _ _ (Or.inl rfl)
  · exact c1_foreign_shape_hard_fault.2.2.2.2.2.2.2.2.2.1 kOk _ ⟨IShape.foreign 1, by simp, rfl⟩
  · exact c1_foreign_shape_hard_fault.2.2.2.2.2.2.2.2.2.2.1 kOk _ _ rfl
  · exact c1_foreign_shape_hard_fault.2.2.2.2.2.2.2.2.2.2.2 kOk _ _ _
      (Or.inr ⟨IShape.foreign 1, by simp, rfl⟩)

/-- C2 counterexample: with the fixed epsilon instantiated at 10^-6,
take p = (0,0,0) and q = (9*10^-7, 9*10^-7, 9*10^-7).  The squared
Euclidean distance, 2.43*10^-12, is at least epsilon^2, so |p-q| is at
least epsilon and the claim says the call proceeds to the kernel; but
every single coordinate difference is below epsilon, so the code's
componentwise check rejects the pair with `Result.err` even under a
kernel that would have succeeded. -/
theorem c2_counterexample :
    XYZ.distSq ⟨0, 0, 0⟩ ⟨9/10000000, 9/10000000, 9/10000000⟩ ≥ ((1 : ℚ)/1000000) ^ 2 ∧
    ShapeFactory.line kOk (1/1000000) ⟨0, 0, 0⟩ ⟨9/10000000, 9/10000000, 9/10000000⟩
      = Result.err "The start and end points are too close." := by
  constructor
  · norm_num [XYZ.distSq]
  · norm_num [ShapeFactory.line, MathUtils.allEqualZero, abs_lt]

/-- C2 (amended): `line(p, p)` always returns `Result.err` and never
invokes the kernel; more generally the rejection test is componentwise,
not Euclidean: `line(p, q)` returns `Result.err` whenever all three
coordinate differences are below epsilon in absolute value (the
componentwise box), which is implied by, but does not imply,
|p-q| < epsilon (the Euclidean ball, stated as the third conjunct); and
it proceeds to the kernel call as soon as one coordinate difference
reaches epsilon. -/
theorem c2_line_closeness_check_amended :
    (∀ (k : WasmShapeFactory) (eps : ℚ) (p : XYZ), 0 < eps →
      ShapeFactory.line k eps p p = Result.err "The start and end points are too close.") ∧
    (∀ (k : WasmShapeFactory) (eps : ℚ) (p q : XYZ),
      |p.x - q.x| < eps → |p.y - q.y| < eps → |p.z - q.z| < eps →
      ShapeFactory.line k eps p q = Result.err "The start and end points are too close.") ∧
    (∀ (k : WasmShapeFactory) (eps : ℚ) (p q : XYZ), 0 < eps →
      XYZ.distSq p q < eps ^ 2 →
      ShapeFactory.line k eps p q = Result.err "The start and end points are too close.") ∧
    (∀ (k : WasmShapeFactory) (eps : ℚ) (p q : XYZ),
      eps ≤ |p.x - q.x| ∨ eps ≤ |p.y - q.y| ∨ eps ≤ |p.z - q.z| →
      ShapeFactory.line k eps p q = convertShapeResult (k.line p q)) := by
  refine ⟨?_, ?_, ?_, ?_⟩
  · intro k eps p h
    simp [ShapeFactory.line, MathUtils.allEqualZero, sub_self, abs_zero, h]
  · intro k eps p q hx hy hz
    simp [ShapeFactory.line, MathUtils.allEqualZero, hx, hy, hz]
  · intro k eps p q heps hd
    simp only [XYZ.distSq] at hd
    have hx : |p.x - q.x| < eps := by
      rw [abs_lt]
      constructor <;> nlinarith [sq_nonneg (p.y - q.y), sq_nonneg (p.z - q.z)]
    have hy : |p.y - q.y| < eps := by
      rw [abs_lt]
      constructor <;> nlinarith [sq_nonneg (p.x - q.x), sq_nonneg (p.z - q.z)]
    have hz : |p.z - q.z| < eps := by
      rw [abs_lt]
      constructor <;> nlinarith [sq_nonneg (p.x - q.x), sq_nonneg (p.y - q.y)]
    simp [ShapeFactory.line, MathUtils.allEqualZero, hx, hy, hz]
  · intro k eps p q h
    have hc : MathUtils.allEqualZero eps [p.x - q.x, p.y - q.y, p.z - q.z] = false := by
      simp only [MathUtils.allEqualZero, List.all_cons, List.all_nil, Bool.and_true,
        Bool.and_eq_false_iff, decide_eq_false_iff_not, not_lt]
      tauto
    simp [ShapeFactory.line, hc]

/-- Witness for C2 (amended): the coincident-pair case; a pair inside
the componentwise box but outside the Euclidean ball (all components
9/10 with epsilon 1, squared distance 243/100 at least epsilon squared),
the very region the correction is about; a pair closer than epsilon in
Euclidean distance; and a pair with a coordinate difference reaching
epsilon, which goes through to the kernel. -/
theorem c2_line_closeness_check_amended_witness :
    ShapeFactory.line kOk 1 ⟨0, 0, 0⟩ ⟨0, 0, 0⟩
      = Result.err "The start and end points are too close." ∧
    (XYZ.distSq ⟨0, 0, 0⟩ ⟨9/10, 9/10, 9/10⟩ ≥ (1 : ℚ) ^ 2 ∧
      ShapeFactory.line kOk 1 ⟨0, 0, 0⟩ ⟨9/10, 9/10, 9/10⟩
        = Result.err "The start and end points are too close.") ∧
    ShapeFactory.line kOk 1 ⟨0, 0, 0⟩ ⟨1/2, 0, 0⟩
      = Result.err "The start and end points are too close." ∧
    ShapeFactory.line kOk 1 ⟨0, 0, 0⟩ ⟨2, 0, 0⟩
      = convertShapeResult (kOk.line ⟨0, 0, 0⟩ ⟨2, 0, 0⟩) :=
  ⟨c2_line_closeness_check_amended.1 kOk 1 ⟨0, 0, 0⟩ (by norm_num),
   ⟨by norm_num [XYZ.distSq],
    c2_line_closeness_check_amended.2.1 kOk 1 ⟨0, 0, 0⟩ ⟨9/10, 9/10, 9/10⟩
      (by norm_num [abs_lt]) (by norm_num [abs_lt]) (by norm_num [abs_lt])⟩,
   c2_line_closeness_check_amended.2.2.1 kOk 1 ⟨0, 0, 0⟩ ⟨1/2, 0, 0⟩ (by norm_num)
     (by norm_num [XYZ.distSq]),
   c2_line_closeness_check_amended.2.2.2 kOk 1 ⟨0, 0, 0⟩ ⟨2, 0, 0⟩
     (Or.inl (by norm_num))⟩

/-- C3 counterexample: the vector (5*10^-7, 0, 0) has all three
components within epsilon = 10^-6 of zero, so the claim calls it a zero
vector and demands `Result.err` with no kernel call; but its length is
not exactly 0, so `prism` proceeds to the kernel and surfaces the
kernel's success. -/
theorem c3_counterexample :
    (|(1 : ℚ)/2000000| < 1/1000000 ∧ |(0 : ℚ)| < 1/1000000) ∧
    ShapeFactory.prism kOk (IShape.occ ⟨1⟩) ⟨1/2000000, 0, 0⟩
      = Except.ok (Result.ok (IShape.occ ⟨7⟩)) := by
  refine ⟨⟨by norm_num [abs_lt], by norm_num [abs_lt]⟩, ?_⟩
  have hv : XYZ.lengthSq ⟨1/2000000, 0, 0⟩ ≠ 0 := by norm_num [XYZ.lengthSq]
  rw [ShapeFactory.prism, if_neg hv]
  rfl

/-- C3 (amended): `prism` returns `Result.err` without invoking the
kernel exactly when the extrusion vector's length is exactly 0 — i.e.
the vector is exactly (0,0,0) — and proceeds to the kernel call for any
vector of nonzero length, including vectors with all three components
within epsilon of zero. -/
theorem c3_prism_zero_vector_amended :
    (∀ (k : WasmShapeFactory) (s : IShape) (v : XYZ), v.lengthSq = 0 →
      ShapeFactory.prism k s v
        = Except.ok (Result.err "The vector length is 0, the prism cannot be created.")) ∧
    (∀ (k : WasmShapeFactory) (t : TopoDS_Shape) (v : XYZ), v.lengthSq ≠ 0 →
      ShapeFactory.prism k (IShape.occ t) v
        = Except.ok (convertShapeResult (k.prism t v))) ∧
    (∀ v : XYZ, v.lengthSq = 0 ↔ v = ⟨0, 0, 0⟩) := by
  refine ⟨?_, ?_, XYZ.lengthSq_eq_zero_iff⟩
  · intro k s v h
    simp [ShapeFactory.prism, h]
  · intro k t v h
    simp [ShapeFactory.prism, h, ensureOccShape]

/-- Witness for C3 (amended): the zero vector is rejected; a nonzero
vector, even one far below epsilon, reaches the kernel. -/
theorem c3_prism_zero_vector_amended_witness :
    ShapeFactory.prism kOk (IShape.occ ⟨1⟩) ⟨0, 0, 0⟩
      = Except.ok (Result.err "The vector length is 0, the prism cannot be created.") ∧
    ShapeFactory.prism kOk (IShape.occ ⟨1⟩) ⟨1, 0, 0⟩
      = Except.ok (convertShapeResult (kOk.prism ⟨1⟩ ⟨1, 0, 0⟩)) :=
  ⟨c3_prism_zero_vector_amended.1 kOk (IShape.occ ⟨1⟩) ⟨0, 0, 0⟩ (by simp [XYZ.lengthSq]),
   c3_prism_zero_vector_amended.2.1 kOk ⟨1⟩ ⟨1, 0, 0⟩ (by norm_num [XYZ.lengthSq])⟩

/-- C8: starting from the quaternion built from Euler angles (30, 45,
60) degrees — i.e. radians 30*pi/180, 45*pi/180, 60*pi/180 — `convert`
produces the degree triple 30,45,60 as text, and `convertBack` on that
text reproduces the original quaternion exactly (the model's number
domain is exact, so "within floating-point tolerance" sharpens to
equality). -/
theorem c8_quaternion_text_roundtrip :
    QuaternionConverter.convert
        (Chili.Quaternion.fromEuler (30 * (Real.pi / 180)) (45 * (Real.pi / 180))
          (60 * (Real.pi / 180)))
      = Result.ok [some 30, some 45, some 60] ∧
    QuaternionConverter.convertBack [some 30, some 45, some 60]
      = Result.ok (Chili.Quaternion.fromEuler (30 * (Real.pi / 180)) (45 * (Real.pi / 180))
          (60 * (Real.pi / 180))) := by
  have hpi : Real.pi ≠ 0 := Real.pi_ne_zero
  constructor
  · have h30 : (30 : ℝ) * (Real.pi / 180) * (180 / Real.pi) = 30 := by field_simp
    have h45 : (45 : ℝ) * (Real.pi / 180) * (180 / Real.pi) = 45 := by field_simp
    have h60 : (60 : ℝ) * (Real.pi / 180) * (180 / Real.pi) = 60 := by field_simp
    simp only [QuaternionConverter.convert, Chili.Quaternion.toEuler,
      Chili.Quaternion.fromEuler, h30, h45, h60]
  · simp [QuaternionConverter.convertBack, Chili.Quaternion.fromEuler,
      List.filterMap_cons, List.getD]

/-- C9: `convertBack` succeeds exactly when the input yields 3 numeric
tokens once the non-numeric ones are filtered out; in particular four
numbers fail while three numbers among extra non-numeric tokens
succeed. -/
theorem c9_convertBack_exactly_three_numbers :
    (∀ ts : List (Option ℝ),
      ((QuaternionConverter.convertBack ts).isOk = true ↔ (ts.filterMap id).length = 3)) ∧
    QuaternionConverter.convertBack [some 1, some 2, some 3, some 4]
      = Result.err "convert to Quaternion error" ∧
    (QuaternionConverter.convertBack [some 1, none, some 2, some 3]).isOk = true := by
  refine ⟨?_, ?_, ?_⟩
  · intro ts
    by_cases h : (ts.filterMap id).length = 3 <;>
      simp [QuaternionConverter.convertBack, h, Result.isOk]
  · simp [QuaternionConverter.convertBack, List.filterMap_cons]
  · simp [QuaternionConverter.convertBack, List.filterMap_cons, Result.isOk]
